import Mathlib

/-!
Verification of the ORM layer of the `python-webapp` repository
(`www/orm.py`): the `Field` descriptor, the `ModelMetaclass.__new__`
schema derivation (table name, primary key, ordinary-field list and the
four SQL templates), and the `Model` instance operations
`getValueOrDefault`, `find` and `save`.

Modelling conventions:
* Python values are a type parameter `V`; a Python expression that may be
  `None` is an `Option V` (with `none` playing the role of `None`).
* A mapped class body is the ordered list of its `Field`-valued attributes
  (CPython class bodies preserve declaration order) together with the
  optional string value of `__table__`; non-`Field` attributes other than
  `__table__` are irrelevant to the deriver and are not represented.
* A callable default (`callable(field.default)`) may be stateful in
  Python, so it is modelled as a function of the number of times it has
  been invoked so far; each instance tracks per-attribute invocation
  counts.  A non-callable default is a constant.
* `raise` is modelled with `Except`/`Option`: `ModelMetaclass.new`
  returns `Except SchemaError _` (the source raises `RuntimeError` at
  schema-derivation time; the spec's taxonomy calls this `SchemaError`),
  and `Model.getValueOrDefault` returns `none` exactly where the source
  would raise `KeyError` on `self.__mappings__[key]`.
* The database collaborators `select` and `execute` are thin wrappers
  over the driver and are out of scope; `find` and `save` take them as
  function parameters (stubs), as the spec's data-access contract does.
-/

namespace Orm

/-- Python truthiness of a `str`-or-`None` value: `None` and the empty
string are falsy, every other string is truthy.  Used for the source's
`if primaryKey:`, `if not primaryKey:`, `attrs.get('__table__', None) or
name` and `v.name or f` tests. -/
def pyTruthy : Option String → Bool
  | none => false
  | some s => !(s == "")

/-- A declared field default (`Field.default` when it `is not None`):
either a plain constant, or a callable; the callable is modelled as a
function of how many times it has been invoked so far (so that stateful
generators such as id or timestamp factories are representable), and it
may return `None`. -/
inductive Default (V : Type) where
  | const : V → Default V
  | gen : (Nat → Option V) → Default V

/-- `class Field` from `www/orm.py`: column name (possibly `None`),
column type tag, primary-key flag, and optional default. -/
structure Field (V : Type) where
  name : Option String
  column_type : String
  primary_key : Bool
  default : Option (Default V)

/-- `class StringField(Field)`: `Field(name, ddl, primary_key, default)`
with `ddl` the column type. -/
def StringField (V : Type) (name : Option String) (primary_key : Bool)
    (default : Option (Default V)) (ddl : String) : Field V :=
  ⟨name, ddl, primary_key, default⟩

/-- The schema-derivation errors raised by `ModelMetaclass.__new__`
(`RuntimeError('Duplicate primary key for field: %s' % k)` and
`RuntimeError('Primary key not found.')`); the spec's error taxonomy
names them `SchemaError`. -/
inductive SchemaError where
  | duplicatePrimaryKey : String → SchemaError
  | primaryKeyNotFound : SchemaError

/-- Python `sep.join`-style join, written recursively for easy
induction; agrees with `str.join` on every list. -/
def strJoin (sep : String) : List String → String
  | [] => ""
  | [a] => a
  | a :: b :: rest => a ++ sep ++ strJoin sep (b :: rest)

/-- `create_args_string(num)` from `www/orm.py`: `num` copies of `'?'`
joined by `','`. -/
def create_args_string (num : Nat) : String :=
  strJoin "," (List.replicate num "?")

/-- Python `dict.get(k)` on an insertion-ordered association list with
unique keys (first match wins). -/
def dictGet (l : List (String × α)) (k : String) : Option α :=
  match l with
  | [] => none
  | (k', v) :: rest => if k' = k then some v else dictGet rest k

/-- Python `d[k] = v` on an insertion-ordered association list: replaces
the value in place if the key is present, else appends at the end. -/
def setItem (l : List (String × α)) (k : String) (v : α) : List (String × α) :=
  match l with
  | [] => [(k, v)]
  | (k', v') :: rest => if k' = k then (k, v) :: rest else (k', v') :: setItem rest k v

/-- The derived mapped-entity schema: the attributes stored on the class
by `ModelMetaclass.__new__` (`__mappings__`, `__table__`,
`__primary_key__`, `__fields__` and the four SQL template strings). -/
structure Schema (V : Type) where
  __mappings__ : List (String × Field V)
  __table__ : String
  __primary_key__ : String
  __fields__ : List String
  __select__ : String
  __insert__ : String
  __update__ : String
  __delete__ : String

/-- `tableName = attrs.get('__table__', None) or name`: the declared
`__table__` string when present and truthy, else the class name. -/
def tableNameOf (name : String) (table : Option String) : String :=
  match table with
  | some t => if t = "" then name else t
  | none => name

/-- The update template's column name for an ordinary field `f`:
`mappings.get(f).name or f` (the declared column name when present and
truthy, else the attribute name).  The `none` arm of the outer match is
unreachable when `f` comes from `__fields__`, since every ordinary field
is a key of `__mappings__`; Python would raise `AttributeError` there. -/
def updateColumn (mappings : List (String × Field V)) (f : String) : String :=
  match dictGet mappings f with
  | some fld =>
    match fld.name with
    | some n => if n = "" then f else n
    | none => f
  | none => f

/-- The field-partition loop of `ModelMetaclass.__new__`: walks the
`Field`-valued attributes in declaration order, remembering the primary
key (`if v.primary_key` / `if primaryKey: raise`) and accumulating the
ordinary field names (`fields.append(k)`).  The primary-key slot starts
as `None` and the occupancy test is Python truthiness. -/
def scanFields : List (String × Field V) → Option String → List String →
    Except SchemaError (Option String × List String)
  | [], pk, fields => .ok (pk, fields)
  | (k, v) :: rest, pk, fields =>
    if v.primary_key then
      if pyTruthy pk then .error (.duplicatePrimaryKey k)
      else scanFields rest (some k) fields
    else scanFields rest pk (fields ++ [k])

/-- The schema-attribute assembly of `ModelMetaclass.__new__`: given the
mappings dict, table name, primary-key name and ordinary-field list,
builds `escaped_fields` and the four SQL template strings exactly as the
source's `%`-format expressions do. -/
def buildSchema (mappings : List (String × Field V)) (tableName : String)
    (primaryKey : String) (fields : List String) : Schema V :=
  let escaped_fields := fields.map (fun f => "`" ++ f ++ "`")
  { __mappings__ := mappings
    __table__ := tableName
    __primary_key__ := primaryKey
    __fields__ := fields
    __select__ := "select `" ++ primaryKey ++ "`, " ++ strJoin "," escaped_fields
      ++ " from `" ++ tableName ++ "`"
    __insert__ := "insert into `" ++ tableName ++ "` (" ++ strJoin "," escaped_fields
      ++ ", `" ++ primaryKey ++ "`) values ("
      ++ create_args_string (escaped_fields.length + 1) ++ ")"
    __update__ := "update `" ++ tableName ++ "` set "
      ++ strJoin "," (fields.map (fun f => "`" ++ updateColumn mappings f ++ "`=?"))
      ++ " where `" ++ primaryKey ++ "`=?"
    __delete__ := "delete from `" ++ tableName ++ "` where `" ++ primaryKey ++ "`=?" }

/-- `ModelMetaclass.__new__` for a mapped type other than `Model`
itself: derives the table name, partitions the declared fields into one
primary key and the ordinary fields (raising on duplicates), raises if
no truthy primary key was found, and otherwise stores the schema
attributes. -/
def ModelMetaclass.new (name : String) (table : Option String)
    (attrs : List (String × Field V)) : Except SchemaError (Schema V) :=
  match scanFields attrs none [] with
  | .error e => .error e
  | .ok (pk, fields) =>
    if pyTruthy pk then .ok (buildSchema attrs (tableNameOf name table) (pk.getD "") fields)
    else .error .primaryKeyNotFound

/-- A mapped-entity instance: `Model` is a dict subclass, so its state
is the ordered key-to-value dict (`vals`, where a stored `none` is a
stored Python `None`), plus per-attribute invocation counts for callable
defaults (instrumentation used to state the invoked-exactly-once
property). -/
structure Model (V : Type) where
  vals : List (String × Option V)
  calls : List (String × Nat)

/-- `Model.getValue(key)` = `getattr(self, key, None)`: the stored value
when the key is present (a stored `None` reads back as `None`), else
`None`. -/
def Model.getValue (m : Model V) (key : String) : Option V :=
  match dictGet m.vals key with
  | some v => v
  | none => none

/-- Number of times the callable default of `key` has been invoked on
this instance so far. -/
def Model.callCount (m : Model V) (key : String) : Nat :=
  (dictGet m.calls key).getD 0

/-- `setattr(self, key, value)` = `self[key] = value`. -/
def Model.setValue (m : Model V) (key : String) (v : Option V) : Model V :=
  { m with vals := setItem m.vals key v }

/-- `Model.getValueOrDefault(key)`: returns the stored value when it is
present and non-`None`; otherwise looks the field up in `__mappings__`
(`none` result = `KeyError`), and if the field declares a default,
resolves it (invoking it once if callable), stores the resolved value on
the instance via `setattr`, and returns it. -/
def Model.getValueOrDefault (mappings : List (String × Field V)) (m : Model V)
    (key : String) : Option (Option V × Model V) :=
  match m.getValue key with
  | some v => some (some v, m)
  | none =>
    match dictGet mappings key with
    | none => none
    | some field =>
      match field.default with
      | none => some (none, m)
      | some (.const c) => some (some c, m.setValue key (some c))
      | some (.gen g) =>
        let v := g (m.callCount key)
        some (v, ⟨setItem m.vals key v, setItem m.calls key (m.callCount key + 1)⟩)

/-- A data-access `select` collaborator stub: takes the SQL template,
the positional arguments and the optional row cap, returns a list of
rows (each row a column-name-to-value dict, with `none` for SQL NULL). -/
abbrev SelectStub (V : Type) :=
  String → List (Option V) → Option Nat → List (List (String × Option V))

/-- `Model.find(pk)`: issues `'%s where `%s`=?' % (cls.__select__,
cls.__primary_key__)` with arguments `[pk]` and row cap `1` against the
`select` collaborator; returns `None` on zero rows, else constructs one
instance from the first returned row (`cls(**rs[0])`). -/
def Model.find (s : Schema V) (sel : SelectStub V) (pk : Option V) :
    Option (Model V) :=
  let rs := sel (s.__select__ ++ " where `" ++ s.__primary_key__ ++ "`=?") [pk] (some 1)
  match rs with
  | [] => none
  | r :: _ => some ⟨r, []⟩

/-- What a run of `Model.save()` did: the bound argument list passed to
`execute`, the affected-row count it reported, whether the
`rows != 1` warning was logged, and the final instance state. -/
structure SaveOutcome (V : Type) where
  args : List (Option V)
  rows : Int
  warned : Bool
  final : Model V

/-- `list(map(self.getValueOrDefault, keys))`: left-to-right
`getValueOrDefault` over a key list, threading the instance state
(each call may store a resolved default). -/
def Model.gvodSeq (mappings : List (String × Field V)) (m : Model V) :
    List String → Option (List (Option V) × Model V)
  | [] => some ([], m)
  | k :: ks =>
    match Model.getValueOrDefault mappings m k with
    | none => none
    | some (v, m1) =>
      match Model.gvodSeq mappings m1 ks with
      | none => none
      | some (vs, m2) => some (v :: vs, m2)

/-- `Model.save()`: gathers `getValueOrDefault` over `__fields__`,
appends the primary-key value, passes `__insert__` and the argument list
to the `execute` collaborator, and logs a warning (without raising) when
the reported affected-row count differs from 1. -/
def Model.save (s : Schema V) (m : Model V)
    (execute : String → List (Option V) → Int) : Option (SaveOutcome V) :=
  match Model.gvodSeq s.__mappings__ m s.__fields__ with
  | none => none
  | some (fieldArgs, m1) =>
    match Model.getValueOrDefault s.__mappings__ m1 s.__primary_key__ with
    | none => none
    | some (pkArg, m2) =>
      let args := fieldArgs ++ [pkArg]
      let rows := execute s.__insert__ args
      some ⟨args, rows, rows != 1, m2⟩

/-- Number of `'?'` placeholder characters in a SQL template string. -/
def countQ (s : String) : Nat := s.toList.count '?'

/-- `pat` occurs as a contiguous substring of `s`. -/
def strContains (s pat : String) : Prop := List.IsInfix pat.toList s.toList

instance (s pat : String) : Decidable (strContains s pat) :=
  List.decidableInfix _ _

/-- Whether the scan produced a truthy primary key (the success test of
`ModelMetaclass.__new__` after its field loop). -/
def pkFound : Except SchemaError (Option String × List String) → Bool
  | .ok (pk, _) => pyTruthy pk
  | .error _ => false

/-- Test fixture: an ordinary string field with no declared column name
and no default. -/
def demoField : Field Nat := ⟨none, "varchar(100)", false, none⟩

/-- Test fixture: a primary-key string field. -/
def demoPkField : Field Nat := ⟨none, "varchar(100)", true, none⟩

/-- Test fixture: the spec's round-trip mapped type
`{id: primaryKey string, name: string, age: int}` in declaration
order. -/
def userAttrs : List (String × Field Nat) :=
  [("id", demoPkField), ("name", demoField), ("age", ⟨none, "bigint", false, none⟩)]

/-- Placeholder schema for the unreachable error arm of `userSchema`. -/
def fallbackSchema : Schema Nat := ⟨[], "", "", [], "", "", "", ""⟩

/-- Test fixture: the schema derived from `userAttrs`. -/
def userSchema : Schema Nat :=
  match ModelMetaclass.new "User" (some "users") userAttrs with
  | .ok s => s
  | .error _ => fallbackSchema

/-- Test fixture for C3: attribute `foo` declares the column name
`bar`. -/
def c3Attrs : List (String × Field Nat) :=
  [("id", ⟨none, "varchar(100)", true, none⟩),
   ("foo", ⟨some "bar", "varchar(100)", false, none⟩)]

/-- Test fixture for C6: a callable default that returns `None` on its
first invocation and `5` afterwards (a stateful generator). -/
def c6Mappings : List (String × Field Nat) :=
  [("age", ⟨none, "bigint", false, some (.gen (fun n => if n == 0 then none else some 5))⟩)]

/-- Test fixture: a constant default of `9` on an otherwise unset
field. -/
def c6ConstMappings : List (String × Field Nat) :=
  [("age", ⟨none, "bigint", false, some (.const 9)⟩)]

/-- Test fixture for C7: one field without default, one with a constant
default, one with a callable default. -/
def c7Mappings : List (String × Field Nat) :=
  [("a", ⟨none, "bigint", false, none⟩),
   ("b", ⟨none, "bigint", false, some (.const 7)⟩),
   ("c", ⟨none, "bigint", false, some (.gen (fun n => some (n + 40)))⟩)]

/-- Test fixture for C7: an instance storing only `a = 3`. -/
def c7M : Model Nat := ⟨[("a", some 3)], []⟩

/-- Test fixture: an instance of `userAttrs` with every field set. -/
def demoUser : Model Nat := ⟨[("id", some 1), ("name", some 2), ("age", some 3)], []⟩

/-- Test fixture: the stored values of `demoUser` as a function. -/
def demoW : String → Nat := fun f => if f = "id" then 1 else if f = "name" then 2 else 3

/-- Test fixture: a `select` collaborator stub returning zero rows. -/
def c8StubEmpty : SelectStub Nat := fun _ _ _ => []

/-- Test fixture: a `select` collaborator stub returning one row. -/
def c8StubOne : SelectStub Nat := fun _ _ _ => [[("id", some 1)]]

theorem scanFields_ok_fields {V : Type} {l : List (String × Field V)} :
    ∀ {pk pk' : Option String} {fs fs' : List String},
      scanFields l pk fs = .ok (pk', fs') →
      fs' = fs ++ (l.filter (fun p => !p.2.primary_key)).map Prod.fst := by
  induction l with
  | nil =>
    intro pk pk' fs fs' h
    simp [scanFields] at h
    simp [h.2]
  | cons hd tl ih =>
    intro pk pk' fs fs' h
    obtain ⟨k, v⟩ := hd
    simp only [scanFields] at h
    cases hp : v.primary_key with
    | true =>
      rw [hp] at h
      simp only [if_true] at h
      cases ht : pyTruthy pk with
      | true => rw [ht] at h; simp at h
      | false =>
        rw [ht] at h
        simp only [if_neg, Bool.false_eq_true, not_false_iff, if_false] at h
        simpa [hp] using ih h
    | false =>
      rw [hp] at h
      simp only [Bool.false_eq_true, if_false] at h
      have := ih h
      simp [hp, this]

theorem scanFields_pkFound {V : Type} {l : List (String × Field V)} :
    (∀ p ∈ l, p.1 ≠ "") → ∀ (pk : Option String) (fs : List String),
      pkFound (scanFields l pk fs) =
        decide (l.countP (fun p => p.2.primary_key) + (pyTruthy pk).toNat = 1) := by
  induction l with
  | nil =>
    intro _ pk fs
    cases hpk : pyTruthy pk <;> simp [scanFields, pkFound, hpk]
  | cons hd tl ih =>
    intro hl pk fs
    obtain ⟨k, v⟩ := hd
    have hk : k ≠ "" := hl (k, v) (List.mem_cons_self _ _)
    have htl : ∀ p ∈ tl, p.1 ≠ "" := fun p hp => hl p (List.mem_cons_of_mem _ hp)
    simp only [scanFields]
    cases hp : v.primary_key with
    | true =>
      simp only [if_true]
      cases ht : pyTruthy pk with
      | true =>
        simp [pkFound, List.countP_cons, hp, ht]
      | false =>
        rw [if_neg (by simp [ht])]
        rw [ih htl (some k) fs]
        have : pyTruthy (some k) = true := by
          simp [pyTruthy]
          exact hk
        simp [this, List.countP_cons, hp, ht]
    | false =>
      simp only [Bool.false_eq_true, if_false]
      rw [ih htl pk (fs ++ [k])]
      simp [List.countP_cons, hp]

theorem scanFields_ok_keys {V : Type} {l : List (String × Field V)} :
    ∀ {pk₀ pk' : Option String} {fs₀ fs' : List String},
      scanFields l pk₀ fs₀ = .ok (pk', fs') →
      (∀ f ∈ fs', f ∈ fs₀ ∨ f ∈ l.map Prod.fst) ∧
      (∀ p, pk' = some p → pk₀ = some p ∨ p ∈ l.map Prod.fst) := by
  induction l with
  | nil =>
    intro pk₀ pk' fs₀ fs' h
    simp [scanFields] at h
    constructor
    · intro f hf; exact Or.inl (h.2 ▸ hf)
    · intro p hp; exact Or.inl (h.1 ▸ hp)
  | cons hd tl ih =>
    intro pk₀ pk' fs₀ fs' h
    obtain ⟨k, v⟩ := hd
    simp only [scanFields] at h
    cases hp : v.primary_key with
    | true =>
      rw [hp] at h
      simp only [if_true] at h
      cases ht : pyTruthy pk₀ with
      | true => rw [ht] at h; simp at h
      | false =>
        rw [ht] at h
        simp only [if_neg, Bool.false_eq_true, not_false_iff, if_false] at h
        obtain ⟨h1, h2⟩ := ih h
        constructor
        · intro f hf
          rcases h1 f hf with hin | hin
          · exact Or.inl hin
          · exact Or.inr (by simp [hin])
        · intro p hp'
          rcases h2 p hp' with hin | hin
          · have hkp : k = p := Option.some.inj hin
            exact Or.inr (by rw [← hkp]; simp)
          · exact Or.inr (by simp [hin])
    | false =>
      rw [hp] at h
      simp only [Bool.false_eq_true, if_false] at h
      obtain ⟨h1, h2⟩ := ih h
      constructor
      · intro f hf
        rcases h1 f hf with hin | hin
        · rcases List.mem_append.mp hin with hin' | hin'
          · exact Or.inl hin'
          · exact Or.inr (by simp [List.mem_singleton.mp hin'])
        · exact Or.inr (by simp [hin])
      · intro p hp'
        rcases h2 p hp' with hin | hin
        · exact Or.inl hin
        · exact Or.inr (by simp [hin])

theorem ModelMetaclass.new_isOk {V : Type} (name : String) (table : Option String)
    (attrs : List (String × Field V)) :
    (ModelMetaclass.new name table attrs).isOk = pkFound (scanFields attrs none []) := by
  unfold ModelMetaclass.new
  cases hscan : scanFields attrs none [] with
  | error e => simp [Except.isOk, Except.toBool, pkFound]
  | ok pr =>
    obtain ⟨pk, fields⟩ := pr
    cases ht : pyTruthy pk <;> simp [ht, Except.isOk, Except.toBool, pkFound]

theorem ModelMetaclass.new_ok_elim {V : Type} {name : String} {table : Option String}
    {attrs : List (String × Field V)} {s : Schema V}
    (h : ModelMetaclass.new name table attrs = .ok s) :
    ∃ pk fields, scanFields attrs none [] = .ok (some pk, fields) ∧ pk ≠ "" ∧
      s = buildSchema attrs (tableNameOf name table) pk fields := by
  unfold ModelMetaclass.new at h
  split at h
  next e heq => simp at h
  next pk? fields heq =>
    split at h
    next ht =>
      cases pk? with
      | none => simp [pyTruthy] at ht
      | some pk =>
        have hk : pk ≠ "" := by simpa [pyTruthy] using ht
        exact ⟨pk, fields, heq, hk, (Except.ok.inj h).symm⟩
    next ht => simp at h


theorem countQ_append (a b : String) : countQ (a ++ b) = countQ a + countQ b := by
  simp [countQ, List.count_append]

theorem countQ_backquoted (f : String) : countQ ("`" ++ f ++ "`") = countQ f := by
  have h : countQ "`" = 0 := rfl
  rw [countQ_append, countQ_append, h]
  omega

theorem countQ_strJoin_comma (l : List String) :
    countQ (strJoin "," l) = (l.map countQ).sum := by
  induction l with
  | nil => rfl
  | cons a tl ih =>
    cases tl with
    | nil => simp [strJoin]
    | cons b tl2 =>
      have h : strJoin "," (a :: b :: tl2) = a ++ "," ++ strJoin "," (b :: tl2) := rfl
      have hc : countQ "," = 0 := rfl
      rw [h, countQ_append, countQ_append, hc, ih]
      simp

theorem countQ_create_args (n : Nat) : countQ (create_args_string n) = n := by
  induction n with
  | zero => rfl
  | succ m ih =>
    cases m with
    | zero => rfl
    | succ m2 =>
      have h : create_args_string (m2 + 2) = "?" ++ "," ++ create_args_string (m2 + 1) := by
        simp [create_args_string, List.replicate_succ, strJoin]
      have h1 : countQ "?" = 1 := rfl
      have h2 : countQ "," = 0 := rfl
      rw [h, countQ_append, countQ_append, h1, h2, ih]
      omega

theorem dictGet_setItem_self (l : List (String × α)) (k : String) (v : α) :
    dictGet (setItem l k v) k = some v := by
  induction l with
  | nil => simp [setItem, dictGet]
  | cons hd tl ih =>
    obtain ⟨k', v'⟩ := hd
    by_cases hk : k' = k
    · simp [setItem, hk, dictGet]
    · simp [setItem, hk, dictGet, ih]

theorem mem_fst_dictGet_isSome {l : List (String × α)} {k : String}
    (h : k ∈ l.map Prod.fst) : (dictGet l k).isSome := by
  induction l with
  | nil => simp at h
  | cons hd tl ih =>
    obtain ⟨k', v'⟩ := hd
    by_cases hk : k' = k
    · simp [dictGet, hk]
    · simp only [dictGet, if_neg hk]
      apply ih
      simp only [List.map_cons, List.mem_cons] at h
      rcases h with h | h
      · exact absurd h.symm hk
      · exact h

theorem getValueOrDefault_present {mappings : List (String × Field V)} {m : Model V}
    {k : String} {v : V} (h : m.getValue k = some v) :
    Model.getValueOrDefault mappings m k = some (some v, m) := by
  unfold Model.getValueOrDefault
  rw [h]

theorem getValueOrDefault_isSome {mappings : List (String × Field V)} {m : Model V}
    {k : String} (h : (dictGet mappings k).isSome) :
    ∃ r, Model.getValueOrDefault mappings m k = some r := by
  cases hv : m.getValue k with
  | some v => exact ⟨_, getValueOrDefault_present hv⟩
  | none =>
    cases hf : dictGet mappings k with
    | none => rw [hf] at h; simp at h
    | some f =>
      cases hd : f.default with
      | none => exact ⟨(none, m), by simp [Model.getValueOrDefault, hv, hf, hd]⟩
      | some d =>
        cases d with
        | const c =>
          exact ⟨(some c, m.setValue k (some c)),
            by simp [Model.getValueOrDefault, hv, hf, hd]⟩
        | gen g =>
          exact ⟨(g (m.callCount k),
              ⟨setItem m.vals k (g (m.callCount k)), setItem m.calls k (m.callCount k + 1)⟩),
            by simp [Model.getValueOrDefault, hv, hf, hd]⟩

theorem gvodSeq_present {mappings : List (String × Field V)} {m : Model V}
    {keys : List String} {w : String → V}
    (h : ∀ f ∈ keys, m.getValue f = some (w f)) :
    Model.gvodSeq mappings m keys = some (keys.map (fun f => some (w f)), m) := by
  induction keys with
  | nil => rfl
  | cons k ks ih =>
    have hk := h k (by simp)
    have hks := ih (fun f hf => h f (List.mem_cons_of_mem _ hf))
    simp [Model.gvodSeq, getValueOrDefault_present hk, hks]

theorem gvodSeq_isSome {mappings : List (String × Field V)} {keys : List String}
    (h : ∀ f ∈ keys, (dictGet mappings f).isSome) :
    ∀ m : Model V, ∃ r, Model.gvodSeq mappings m keys = some r := by
  induction keys with
  | nil => intro m; exact ⟨_, rfl⟩
  | cons k ks ih =>
    intro m
    obtain ⟨⟨v, m1⟩, h1⟩ := @getValueOrDefault_isSome V mappings m k (h k (by simp))
    obtain ⟨⟨vs, m2⟩, h2⟩ := ih (fun f hf => h f (List.mem_cons_of_mem _ hf)) m1
    refine ⟨(v :: vs, m2), ?_⟩
    simp [Model.gvodSeq, h1, h2]

theorem getValueOrDefault_stable {mappings : List (String × Field V)} {m m' : Model V}
    {k : String} {v : V}
    (h : Model.getValueOrDefault mappings m k = some (some v, m')) :
    Model.getValueOrDefault mappings m' k = some (some v, m') := by
  cases hv : m.getValue k with
  | some u =>
    have h' := @getValueOrDefault_present V mappings m k u hv
    rw [h'] at h
    obtain ⟨h1, h2⟩ := Prod.mk.inj (Option.some.inj h)
    rw [← h2, h', h1]
  | none =>
    cases hf : dictGet mappings k with
    | none => simp [Model.getValueOrDefault, hv, hf] at h
    | some f =>
      cases hd : f.default with
      | none => simp [Model.getValueOrDefault, hv, hf, hd] at h
      | some d =>
        cases d with
        | const c =>
          simp [Model.getValueOrDefault, hv, hf, hd] at h
          obtain ⟨h1, h2⟩ := h
          have hv' : m'.getValue k = some v := by
            rw [← h2]
            simp [Model.getValue, Model.setValue, dictGet_setItem_self, h1]
          exact getValueOrDefault_present hv'
        | gen g =>
          simp [Model.getValueOrDefault, hv, hf, hd] at h
          obtain ⟨h1, h2⟩ := h
          have hv' : m'.getValue k = some v := by
            rw [← h2]
            simp [Model.getValue, dictGet_setItem_self, h1]
          exact getValueOrDefault_present hv'

theorem sum_map_ones {l : List α} {g : α → Nat} (h : ∀ x ∈ l, g x = 1) :
    (l.map g).sum = l.length := by
  induction l with
  | nil => rfl
  | cons a tl ih =>
    simp [h a (by simp), ih (fun x hx => h x (List.mem_cons_of_mem _ hx))]
    omega

theorem sum_map_zeros {l : List α} {g : α → Nat} (h : ∀ x ∈ l, g x = 0) :
    (l.map g).sum = 0 := by
  induction l with
  | nil => rfl
  | cons a tl ih =>
    simp [h a (by simp), ih (fun x hx => h x (List.mem_cons_of_mem _ hx))]

theorem countQ_backquoted_col {c : String} (hc : countQ c = 0) :
    countQ ("`" ++ c ++ "`=?") = 1 := by
  have h1 : countQ "`" = 0 := rfl
  have h2 : countQ "`=?" = 1 := rfl
  rw [countQ_append, countQ_append, h1, h2, hc]

/-- C1: for every declared set of fields (with nonempty attribute names,
as Python identifiers are), schema derivation via `ModelMetaclass.new`
succeeds exactly when one declared field is marked primary key; with
zero or with two or more primary-key fields it fails with a
`SchemaError`, so no schema is produced and the mapped type is not
registered. -/
theorem c1_single_primary_key_invariant {V : Type} (name : String) (table : Option String)
    (attrs : List (String × Field V)) (hl : ∀ p ∈ attrs, p.1 ≠ "") :
    ((∃ s, ModelMetaclass.new name table attrs = .ok s) ↔
        attrs.countP (fun p => p.2.primary_key) = 1) ∧
    (attrs.countP (fun p => p.2.primary_key) ≠ 1 →
        ∃ e : SchemaError, ModelMetaclass.new name table attrs = .error e) := by
  have hok : (ModelMetaclass.new name table attrs).isOk =
      decide (attrs.countP (fun p => p.2.primary_key) = 1) := by
    rw [ModelMetaclass.new_isOk, scanFields_pkFound hl none []]
    simp [pyTruthy]
  constructor
  · constructor
    · rintro ⟨s, hs⟩
      rw [hs] at hok
      simpa [Except.isOk, Except.toBool] using hok.symm
    · intro hcount
      cases hnew : ModelMetaclass.new name table attrs with
      | ok s => exact ⟨s, rfl⟩
      | error e =>
        rw [hnew] at hok
        simp [hcount, Except.isOk, Except.toBool] at hok
  · intro hne
    cases hnew : ModelMetaclass.new name table attrs with
    | ok s =>
      rw [hnew] at hok
      simp [Except.isOk, Except.toBool] at hok
      exact absurd hok hne
    | error e => exact ⟨e, rfl⟩

/-- C1 witness: one primary key among `{id, name}` derives a schema;
zero primary keys and two primary keys each fail with a
`SchemaError`. -/
theorem c1_witness :
    (∃ s, ModelMetaclass.new "User" none [("id", demoPkField), ("name", demoField)] = .ok s) ∧
    (∃ e, ModelMetaclass.new "User" none [("name", demoField)] = .error e) ∧
    (∃ e, ModelMetaclass.new "User" none
        [("id", demoPkField), ("uid", demoPkField)] = .error e) := by
  refine ⟨?_, ?_, ?_⟩
  · exact (c1_single_primary_key_invariant "User" none _ (by decide)).1.mpr (by decide)
  · exact (c1_single_primary_key_invariant "User" none _ (by decide)).2 (by decide)
  · exact (c1_single_primary_key_invariant "User" none _ (by decide)).2 (by decide)

/-- C5: schema derivation is deterministic; two derivations from the
same declarations (same names, descriptors, order and table) yield
byte-identical select, insert, update and delete templates. -/
theorem c5_template_determinism {V : Type} (name : String) (table : Option String)
    (attrs : List (String × Field V)) (s₁ s₂ : Schema V)
    (h₁ : ModelMetaclass.new name table attrs = .ok s₁)
    (h₂ : ModelMetaclass.new name table attrs = .ok s₂) :
    s₁.__select__ = s₂.__select__ ∧ s₁.__insert__ = s₂.__insert__ ∧
    s₁.__update__ = s₂.__update__ ∧ s₁.__delete__ = s₂.__delete__ := by
  have h : s₁ = s₂ := Except.ok.inj (h₁.symm.trans h₂)
  subst h
  exact ⟨rfl, rfl, rfl, rfl⟩

/-- C5 witness: the determinism theorem applied to two runs of the
derivation on `userAttrs`. -/
theorem c5_witness :
    userSchema.__select__ = userSchema.__select__ ∧
    userSchema.__insert__ = userSchema.__insert__ ∧
    userSchema.__update__ = userSchema.__update__ ∧
    userSchema.__delete__ = userSchema.__delete__ :=
  c5_template_determinism "User" (some "users") userAttrs userSchema userSchema rfl rfl

/-- C10: a mapped type with exactly one primary-key field and zero
ordinary fields derives successfully, and its select and insert
templates carry an empty ordinary-column list with a dangling comma. -/
theorem c10_zero_ordinary_fields {V : Type} (name pkName : String) (table : Option String)
    (f : Field V) (hpk : f.primary_key = true) (hne : pkName ≠ "") :
    ∃ s, ModelMetaclass.new name table [(pkName, f)] = .ok s ∧
      s.__select__ = "select `" ++ pkName ++ "`,  from `" ++ tableNameOf name table ++ "`" ∧
      s.__insert__ =
        "insert into `" ++ tableNameOf name table ++ "` (, `" ++ pkName ++ "`) values (?)" := by
  have hscan : scanFields [(pkName, f)] (none : Option String) [] = .ok (some pkName, []) := by
    simp [scanFields, hpk, pyTruthy]
  have ht : pyTruthy (some pkName) = true := by
    simp [pyTruthy]
    exact hne
  refine ⟨buildSchema [(pkName, f)] (tableNameOf name table) pkName [], ?_, ?_, ?_⟩
  · simp [ModelMetaclass.new, hscan, ht]
  · simp [buildSchema, strJoin, String.append_assoc]
  · simp [buildSchema, strJoin, create_args_string, List.replicate, String.append_assoc]

/-- C10 witness: the single-field type `{id: primaryKey}` named `T`
yields the dangling-comma templates. -/
theorem c10_witness :
    ∃ s, ModelMetaclass.new "T" none [("id", demoPkField)] = .ok s ∧
      s.__select__ = "select `id`,  from `T`" ∧
      s.__insert__ = "insert into `T` (, `id`) values (?)" := by
  obtain ⟨s, h1, h2, h3⟩ := c10_zero_ordinary_fields "T" "id" none demoPkField rfl (by decide)
  exact ⟨s, h1, h2.trans (by rfl), h3.trans (by rfl)⟩

/-- C3 counterexample: with attribute `foo` declaring column name `bar`
(`c3Attrs`), the derived select template refers to the field by its
attribute name `` `foo` `` and nowhere by its declared column name
`` `bar` ``; so not all four templates use the declared column name. -/
theorem c3_counterexample :
    ((ModelMetaclass.new "T" (some "t") c3Attrs).toOption.map Schema.__select__ =
      some "select `id`, `foo` from `t`") ∧
    ¬ strContains "select `id`, `foo` from `t`" "`bar`" ∧
    strContains "select `id`, `foo` from `t`" "`foo`" :=
  ⟨rfl, by decide, by decide⟩

/-- C3 amended: only the update template refers to an ordinary field by
its declared column name (falling back to the attribute name when the
declared name is absent or empty); the select and insert templates
always use the back-quoted attribute name, and the delete template
contains no ordinary-field reference at all. -/
theorem c3_amended_column_names {V : Type} (name : String) (table : Option String)
    (attrs : List (String × Field V)) (s : Schema V)
    (h : ModelMetaclass.new name table attrs = .ok s) :
    s.__select__ = "select `" ++ s.__primary_key__ ++ "`, "
        ++ strJoin "," (s.__fields__.map (fun f => "`" ++ f ++ "`"))
        ++ " from `" ++ s.__table__ ++ "`" ∧
    s.__insert__ = "insert into `" ++ s.__table__ ++ "` ("
        ++ strJoin "," (s.__fields__.map (fun f => "`" ++ f ++ "`"))
        ++ ", `" ++ s.__primary_key__ ++ "`) values ("
        ++ create_args_string (s.__fields__.length + 1) ++ ")" ∧
    s.__update__ = "update `" ++ s.__table__ ++ "` set "
        ++ strJoin "," (s.__fields__.map
            (fun f => "`" ++ updateColumn s.__mappings__ f ++ "`=?"))
        ++ " where `" ++ s.__primary_key__ ++ "`=?" ∧
    s.__delete__ = "delete from `" ++ s.__table__ ++ "` where `" ++ s.__primary_key__ ++ "`=?" := by
  obtain ⟨pk, fields, hscan, hne, hs⟩ := ModelMetaclass.new_ok_elim h
  subst hs
  refine ⟨?_, ?_, ?_, ?_⟩ <;> simp [buildSchema]

/-- C3 amended witness: the four templates of the `c3Attrs` schema in
the amended form. -/
theorem c3_amended_witness :
    ∃ s : Schema Nat, ModelMetaclass.new "T" (some "t") c3Attrs = .ok s ∧
      s.__select__ = "select `id`, `foo` from `t`" ∧
      s.__insert__ = "insert into `t` (`foo`, `id`) values (?,?)" ∧
      s.__update__ = "update `t` set `bar`=? where `id`=?" ∧
      s.__delete__ = "delete from `t` where `id`=?" := by
  obtain ⟨h1, h2, h3, h4⟩ := c3_amended_column_names "T" (some "t") c3Attrs
    (buildSchema c3Attrs "t" "id" ["foo"]) rfl
  exact ⟨buildSchema c3Attrs "t" "id" ["foo"], rfl,
    h1.trans (by rfl), h2.trans (by rfl), h3.trans (by rfl), h4.trans (by rfl)⟩

/-- C4: the derived update template is
`update <table> set <col>=?,... where <pk>=?` with one placeholder per
ordinary field in declaration order followed by the primary-key
placeholder, and the delete template is
`delete from <table> where <pk>=?` (placeholder counts under the
standing assumption that identifiers contain no `?`). -/
theorem c4_update_delete_templates {V : Type} (name : String) (table : Option String)
    (attrs : List (String × Field V)) (s : Schema V)
    (h : ModelMetaclass.new name table attrs = .ok s)
    (hqt : countQ s.__table__ = 0) (hqp : countQ s.__primary_key__ = 0)
    (hqf : ∀ f ∈ s.__fields__, countQ (updateColumn s.__mappings__ f) = 0) :
    s.__update__ = "update `" ++ s.__table__ ++ "` set "
        ++ strJoin "," (s.__fields__.map
            (fun f => "`" ++ updateColumn s.__mappings__ f ++ "`=?"))
        ++ " where `" ++ s.__primary_key__ ++ "`=?" ∧
    countQ s.__update__ = s.__fields__.length + 1 ∧
    s.__fields__ = (attrs.filter (fun p => !p.2.primary_key)).map Prod.fst ∧
    s.__delete__ = "delete from `" ++ s.__table__ ++ "` where `" ++ s.__primary_key__ ++ "`=?" := by
  obtain ⟨pk, fields, hscan, hne, hs⟩ := ModelMetaclass.new_ok_elim h
  have hfields : fields = (attrs.filter (fun p => !p.2.primary_key)).map Prod.fst := by
    simpa using scanFields_ok_fields hscan
  subst hs
  simp only [buildSchema] at hqt hqp hqf ⊢
  refine ⟨trivial, ?_, hfields, trivial⟩
  have hjoin : countQ (strJoin ","
      (fields.map (fun f => "`" ++ updateColumn attrs f ++ "`=?"))) = fields.length := by
    rw [countQ_strJoin_comma, List.map_map]
    exact sum_map_ones (fun f hf => countQ_backquoted_col (hqf f hf))
  have h1 : countQ "update `" = 0 := rfl
  have h2 : countQ "` set " = 0 := rfl
  have h3 : countQ " where `" = 0 := rfl
  have h4 : countQ "`=?" = 1 := rfl
  simp only [countQ_append, h1, h2, h3, h4, hqt, hqp, hjoin]
  omega

/-- C4 witness: for `{id: primaryKey string, name: string, age: int}`
(`userAttrs`, table `users`) the update template is
`update ``users`` set ``name``=?,``age``=? where ``id``=?` and the delete
template is `delete from ``users`` where ``id``=?`. -/
theorem c4_witness :
    ∃ s : Schema Nat, ModelMetaclass.new "User" (some "users") userAttrs = .ok s ∧
      s.__update__ = "update `users` set `name`=?,`age`=? where `id`=?" ∧
      countQ s.__update__ = 3 ∧
      s.__delete__ = "delete from `users` where `id`=?" := by
  have h := c4_update_delete_templates "User" (some "users") userAttrs userSchema rfl
    (by decide) (by decide) (by decide)
  exact ⟨userSchema, rfl, h.1.trans (by rfl), h.2.1.trans (by rfl), h.2.2.2⟩

/-- C2: the derived insert template has the form
`insert into <table> (<ordinaryColumns...>, <pkColumn>) values (...)`
with exactly n+1 `?` placeholders for n ordinary fields, and `save()`
binds the ordinary-field values in declaration order with the
primary-key value last (shown here for an instance whose stored values
are given by `w`). -/
theorem c2_insert_template_and_binding {V : Type} (name : String) (table : Option String)
    (attrs : List (String × Field V)) (s : Schema V)
    (h : ModelMetaclass.new name table attrs = .ok s)
    (hqt : countQ s.__table__ = 0) (hqp : countQ s.__primary_key__ = 0)
    (hqf : ∀ f ∈ s.__fields__, countQ f = 0)
    (m : Model V) (w : String → V)
    (hw : ∀ f ∈ s.__fields__ ++ [s.__primary_key__], m.getValue f = some (w f))
    (execute : String → List (Option V) → Int) :
    s.__insert__ = "insert into `" ++ s.__table__ ++ "` ("
        ++ strJoin "," (s.__fields__.map (fun f => "`" ++ f ++ "`"))
        ++ ", `" ++ s.__primary_key__ ++ "`) values ("
        ++ create_args_string (s.__fields__.length + 1) ++ ")" ∧
    countQ s.__insert__ = s.__fields__.length + 1 ∧
    s.__fields__ = (attrs.filter (fun p => !p.2.primary_key)).map Prod.fst ∧
    ∃ out, Model.save s m execute = some out ∧
      out.args = s.__fields__.map (fun f => some (w f)) ++ [some (w s.__primary_key__)] := by
  obtain ⟨pk, fields, hscan, hne, hs⟩ := ModelMetaclass.new_ok_elim h
  have hfields : fields = (attrs.filter (fun p => !p.2.primary_key)).map Prod.fst := by
    simpa using scanFields_ok_fields hscan
  subst hs
  simp only [buildSchema] at hqt hqp hqf hw ⊢
  have hwf : ∀ f ∈ fields, m.getValue f = some (w f) :=
    fun f hf => hw f (List.mem_append_left _ hf)
  have hwp : m.getValue pk = some (w pk) :=
    hw pk (List.mem_append_right _ (List.mem_singleton_self _))
  have hseq := @gvodSeq_present V attrs m fields w hwf
  have hpkv := @getValueOrDefault_present V attrs m pk (w pk) hwp
  refine ⟨by simp, ?_, hfields, ?_⟩
  · have hjoin : countQ (strJoin "," (fields.map (fun f => "`" ++ f ++ "`"))) = 0 := by
      rw [countQ_strJoin_comma, List.map_map]
      exact sum_map_zeros (fun f hf => by
        rw [Function.comp_apply, countQ_backquoted]
        exact hqf f hf)
    have h1 : countQ "insert into `" = 0 := rfl
    have h2 : countQ "` (" = 0 := rfl
    have h3 : countQ ", `" = 0 := rfl
    have h4 : countQ "`) values (" = 0 := rfl
    have h5 : countQ ")" = 0 := rfl
    simp only [countQ_append, h1, h2, h3, h4, h5, hqt, hqp, hjoin, countQ_create_args,
      List.length_map]
    omega
  · have hsave : Model.save (buildSchema attrs (tableNameOf name table) pk fields) m execute =
        some ⟨fields.map (fun f => some (w f)) ++ [some (w pk)],
          execute (buildSchema attrs (tableNameOf name table) pk fields).__insert__
            (fields.map (fun f => some (w f)) ++ [some (w pk)]),
          execute (buildSchema attrs (tableNameOf name table) pk fields).__insert__
            (fields.map (fun f => some (w f)) ++ [some (w pk)]) != 1, m⟩ := by
      simp [Model.save, buildSchema, hseq, hpkv]
    exact ⟨_, hsave, rfl⟩

/-- C2 witness: for `userAttrs` and an instance with `id=1, name=2,
age=3` all set, the insert template has 3 placeholders and `save` binds
`[name, age, id] = [2, 3, 1]`. -/
theorem c2_witness :
    countQ userSchema.__insert__ = 3 ∧
    ∃ out, Model.save userSchema demoUser (fun _ _ => (1 : Int)) = some out ∧
      out.args = [some 2, some 3, some 1] := by
  have h := c2_insert_template_and_binding "User" (some "users") userAttrs userSchema rfl
    (by decide) (by decide) (by decide) demoUser demoW (by decide) (fun _ _ => (1 : Int))
  obtain ⟨-, hq, -, out, hsave, hargs⟩ := h
  exact ⟨hq.trans (by rfl), out, hsave, hargs.trans (by rfl)⟩

/-- C7: `getValueOrDefault` returns a present non-null stored value
unchanged; on an absent-or-null value it returns null when no default is
declared, resolves and stores a constant default, and invokes a callable
default exactly once (invocation count rises by exactly one), storing
and returning the produced value. -/
theorem c7_getValueOrDefault_contract {V : Type} (mappings : List (String × Field V))
    (m : Model V) (k : String) (f : Field V) (hf : dictGet mappings k = some f) :
    (∀ v : V, m.getValue k = some v →
      Model.getValueOrDefault mappings m k = some (some v, m)) ∧
    (m.getValue k = none → f.default = none →
      Model.getValueOrDefault mappings m k = some (none, m)) ∧
    (∀ c : V, m.getValue k = none → f.default = some (.const c) →
      Model.getValueOrDefault mappings m k = some (some c, m.setValue k (some c)) ∧
      (m.setValue k (some c)).getValue k = some c) ∧
    (∀ g : Nat → Option V, m.getValue k = none → f.default = some (.gen g) →
      ∃ m', Model.getValueOrDefault mappings m k = some (g (m.callCount k), m') ∧
        dictGet m'.vals k = some (g (m.callCount k)) ∧
        m'.callCount k = m.callCount k + 1) := by
  refine ⟨?_, ?_, ?_, ?_⟩
  · intro v hv
    exact getValueOrDefault_present hv
  · intro hv hd
    simp [Model.getValueOrDefault, hv, hf, hd]
  · intro c hv hd
    constructor
    · simp [Model.getValueOrDefault, hv, hf, hd]
    · simp [Model.getValue, Model.setValue, dictGet_setItem_self]
  · intro g hv hd
    refine ⟨⟨setItem m.vals k (g (m.callCount k)),
      setItem m.calls k (m.callCount k + 1)⟩, ?_, ?_, ?_⟩
    · simp [Model.getValueOrDefault, hv, hf, hd]
    · exact dictGet_setItem_self _ _ _
    · simp [Model.callCount, dictGet_setItem_self]

/-- C7 witness: on `c7Mappings` and `c7M` — the stored `a=3` is returned
unchanged; the constant default `7` of `b` is stored and returned; the
callable default of `c` is invoked once at count 0, producing and
storing `40`, with the count rising to 1. -/
theorem c7_witness :
    Model.getValueOrDefault c7Mappings c7M "a" = some (some 3, c7M) ∧
    Model.getValueOrDefault c7Mappings c7M "b" = some (some 7, c7M.setValue "b" (some 7)) ∧
    ∃ m', Model.getValueOrDefault c7Mappings c7M "c" = some (some 40, m') ∧
      dictGet m'.vals "c" = some (some 40) ∧ m'.callCount "c" = 1 := by
  refine ⟨?_, ?_, ?_⟩
  · exact (c7_getValueOrDefault_contract c7Mappings c7M "a" _ rfl).1 3 rfl
  · exact ((c7_getValueOrDefault_contract c7Mappings c7M "b" _ rfl).2.2.1 7 rfl rfl).1
  · exact (c7_getValueOrDefault_contract c7Mappings c7M "c" _ rfl).2.2.2
      (fun n => some (n + 40)) rfl rfl

/-- C6 counterexample: on `c6Mappings` the field `age` is unset and has
a declared (callable) default; the first `getValueOrDefault` resolves
`None` and stores it, but the second call re-invokes the generator and
returns `5 ≠ None`, refuting same-value-on-every-subsequent-read. -/
theorem c6_counterexample :
    Model.getValue (⟨[], []⟩ : Model Nat) "age" = none ∧
    (dictGet c6Mappings "age").isSome ∧
    Model.getValueOrDefault c6Mappings ⟨[], []⟩ "age" =
      some (none, ⟨[("age", none)], [("age", 1)]⟩) ∧
    Model.getValueOrDefault c6Mappings ⟨[("age", none)], [("age", 1)]⟩ "age" =
      some (some 5, ⟨[("age", some 5)], [("age", 2)]⟩) ∧
    (some 5 ≠ (none : Option Nat)) :=
  ⟨rfl, rfl, rfl, rfl, by decide⟩

/-- C6 amended: after a first `getValueOrDefault` on an unset field with
a declared default, every subsequent call returns the first call's value
provided that value is non-null (the first call stores it and the state
is unchanged thereafter); a callable default that resolves to null is
re-invoked on later reads. -/
theorem c6_amended_idempotence {V : Type} (mappings : List (String × Field V))
    (m m' : Model V) (k : String) (v : V) (f : Field V) (d : Default V)
    (hunset : m.getValue k = none) (hf : dictGet mappings k = some f)
    (hd : f.default = some d)
    (hfirst : Model.getValueOrDefault mappings m k = some (some v, m')) :
    Model.getValueOrDefault mappings m' k = some (some v, m') :=
  getValueOrDefault_stable hfirst

/-- C6 amended witness: the constant default `9`, once resolved and
stored by a first call, is returned unchanged by the second call. -/
theorem c6_amended_witness :
    Model.getValueOrDefault c6ConstMappings ⟨[("age", some 9)], []⟩ "age" =
      some (some 9, ⟨[("age", some 9)], []⟩) :=
  c6_amended_idempotence c6ConstMappings ⟨[], []⟩ ⟨[("age", some 9)], []⟩ "age" 9
    ⟨none, "bigint", false, some (.const 9)⟩ (.const 9) rfl rfl rfl rfl

/-- C8: `find(pk)` issues the schema's select template with the
primary-key equality predicate appended and a row cap of 1; a stub
returning zero rows yields `None` (not an error), a stub returning rows
yields exactly one instance built from the first row, and the result
depends on the collaborator only through that single query. -/
theorem c8_find_contract {V : Type} (s : Schema V) (sel sel' : SelectStub V) (pk : Option V) :
    (sel (s.__select__ ++ " where `" ++ s.__primary_key__ ++ "`=?") [pk] (some 1) = [] →
      Model.find s sel pk = none) ∧
    (∀ r rest, sel (s.__select__ ++ " where `" ++ s.__primary_key__ ++ "`=?") [pk] (some 1)
        = r :: rest → Model.find s sel pk = some ⟨r, []⟩) ∧
    (sel (s.__select__ ++ " where `" ++ s.__primary_key__ ++ "`=?") [pk] (some 1) =
        sel' (s.__select__ ++ " where `" ++ s.__primary_key__ ++ "`=?") [pk] (some 1) →
      Model.find s sel pk = Model.find s sel' pk) := by
  refine ⟨?_, ?_, ?_⟩
  · intro h
    simp [Model.find, h]
  · intro r rest h
    simp [Model.find, h]
  · intro h
    simp [Model.find, h]

/-- C8 witness: a zero-row stub makes `find` return `None`; a one-row
stub makes it return the instance built from that row. -/
theorem c8_witness :
    Model.find userSchema c8StubEmpty (some 1) = none ∧
    Model.find userSchema c8StubOne (some 1) = some ⟨[("id", some 1)], []⟩ :=
  ⟨(c8_find_contract userSchema c8StubEmpty c8StubEmpty (some 1)).1 rfl,
   (c8_find_contract userSchema c8StubOne c8StubOne (some 1)).2.1 [("id", some 1)] [] rfl⟩

/-- C9: for a schema produced by the deriver, `save()` always returns
normally — whatever affected-row count the `execute` collaborator
reports — and merely records the `rows != 1` diagnostic in its warning
flag; it raises no error of its own. -/
theorem c9_save_row_anomaly_tolerated {V : Type} (name : String) (table : Option String)
    (attrs : List (String × Field V)) (s : Schema V)
    (h : ModelMetaclass.new name table attrs = .ok s)
    (m : Model V) (execute : String → List (Option V) → Int) :
    ∃ out, Model.save s m execute = some out ∧
      out.rows = execute s.__insert__ out.args ∧
      out.warned = (out.rows != 1) := by
  obtain ⟨pk, fields, hscan, hne, hs⟩ := ModelMetaclass.new_ok_elim h
  obtain ⟨hmemf, hmemp⟩ := scanFields_ok_keys hscan
  have hpkmem : pk ∈ attrs.map Prod.fst := by
    rcases hmemp pk rfl with hin | hin
    · simp at hin
    · exact hin
  have hfmem : ∀ f ∈ fields, (dictGet attrs f).isSome := by
    intro f hf
    rcases hmemf f hf with hin | hin
    · simp at hin
    · exact mem_fst_dictGet_isSome hin
  subst hs
  obtain ⟨⟨fargs, m1⟩, hseq⟩ := gvodSeq_isSome hfmem m
  obtain ⟨⟨pkArg, m2⟩, hpkv⟩ :=
    @getValueOrDefault_isSome V attrs m1 pk (mem_fst_dictGet_isSome hpkmem)
  refine ⟨⟨fargs ++ [pkArg],
    execute (buildSchema attrs (tableNameOf name table) pk fields).__insert__ (fargs ++ [pkArg]),
    execute (buildSchema attrs (tableNameOf name table) pk fields).__insert__
      (fargs ++ [pkArg]) != 1, m2⟩, ?_, rfl, rfl⟩
  simp [Model.save, buildSchema, hseq, hpkv]

/-- C9 witness: an `execute` stub reporting 0 affected rows makes
`save` return normally with the warning flag set. -/
theorem c9_witness :
    ∃ out, Model.save userSchema ⟨[], []⟩ (fun _ _ => (0 : Int)) = some out ∧
      out.warned = true := by
  obtain ⟨out, h1, h2, h3⟩ := c9_save_row_anomaly_tolerated "User" (some "users") userAttrs
    userSchema rfl ⟨[], []⟩ (fun _ _ => (0 : Int))
  refine ⟨out, h1, ?_⟩
  rw [h3, h2]
  rfl

end Orm
